import Mathlib

/-!
Verification of the notes-manager service layer
(`app/services.py`, `app/routes/notes.py`, `app/models.py`).

Shallow embedding conventions:
* A Python `dict` (both the volatile in-memory store and the durable DB
  table keyed by primary key) is modelled as an association list
  `List (Nat × α)` whose keys are unique.  Assigning to a present key
  replaces the entry in place, assigning to a fresh key appends (Python
  dicts preserve insertion order); `dict.values()` is the list of values
  in that order.
* Timestamps (`datetime.now(timezone.utc)`) are modelled as an abstract
  clock value `now : Nat` passed to each operation.
* A durable-backend failure (`SQLAlchemyError`, spec name `StorageError`)
  is modelled by a boolean `dbFail` passed to each operation: `true`
  means the durable attempt raises on this call (after the rollback the
  durable table is unchanged).  The volatile branch can never fail.
* `create_note`, `update_note`, `delete_note` wrap the durable attempt in
  `try/except SQLAlchemyError`, enable the fallback flag and re-invoke the
  same operation, which then executes its volatile branch; the retry is
  written here as a direct call to that volatile branch (`*_fallback`),
  which is what the recursive call evaluates to once the flag is set.
  `get_note` and `list_notes` have no `try/except` in the source, so in
  the model they return `Except StorageError _` and surface the error.
* The durable table is modelled with its own autoincrement counter
  `db_next_id`; `Note.query.order_by(Note.id.desc())` is modelled by
  sorting the table's rows by descending id.
-/

/-- The exception raised by the durable backend (`SQLAlchemyError` in the
source, `StorageError` in the specification). -/
inductive StorageError
  | storageError
deriving DecidableEq

/-- One stored note: the five fields of the `Note` entity
(`app/models.py`), timestamps as abstract clock values. -/
structure NoteData where
  id : Nat
  title : String
  content : String
  created_at : Nat
  updated_at : Nat
deriving DecidableEq

/-- `d.get(k)`: first binding of `k` in the association list. -/
def dictGet {α : Type} : List (Nat × α) → Nat → Option α
  | [], _ => none
  | (k, v) :: rest, k2 => if k = k2 then some v else dictGet rest k2

/-- `d[k] = v`: replace in place when the key is present, append when it
is fresh (Python dicts keep insertion order). -/
def dictSet {α : Type} : List (Nat × α) → Nat → α → List (Nat × α)
  | [], k, v => [(k, v)]
  | (k2, v2) :: rest, k, v =>
      if k2 = k then (k, v) :: rest else (k2, v2) :: dictSet rest k v

/-- Removal of a key (`del d[k]` / the removing half of `d.pop(k)`); keys
of a Python dict are unique, so removing every binding of `k` is the
removal of its one binding. -/
def dictRemove {α : Type} (d : List (Nat × α)) (k : Nat) : List (Nat × α) :=
  d.filter (fun p => p.1 != k)

/-- `d.pop(k, None)`: the removed value (if any) together with the
remaining dict. -/
def dictPop {α : Type} (d : List (Nat × α)) (k : Nat) :
    Option α × List (Nat × α) :=
  (dictGet d k, dictRemove d k)

/-- `d.values()` in insertion order. -/
def dictValues {α : Type} (d : List (Nat × α)) : List α :=
  d.map Prod.snd

/-- Insert a note into a list sorted by descending id, keeping it sorted. -/
def insertDesc (x : NoteData) : List NoteData → List NoteData
  | [] => [x]
  | y :: ys => if y.id ≤ x.id then x :: y :: ys else y :: insertDesc x ys

/-- Sort rows by descending id: the model of the durable query
`Note.query.order_by(Note.id.desc())`. -/
def sortDesc : List NoteData → List NoteData
  | [] => []
  | x :: xs => insertDesc x (sortDesc xs)

/-- Python `content or ""`: `None` and the empty string both yield `""`. -/
def pyOr (content : Option String) : String :=
  match content with
  | none => ""
  | some c => c

/-- Python `str.strip()`: drop leading and trailing whitespace. -/
def pyStrip (s : String) : String :=
  String.mk (((s.data.dropWhile Char.isWhitespace).reverse.dropWhile
    Char.isWhitespace).reverse)

/-- State of one `NotesService` instance (`app/services.py`): the
fallback flag, the in-memory store with its id counter, and the durable
table with the database's autoincrement counter. -/
structure NotesService where
  fallback_enabled : Bool
  mem_store : List (Nat × NoteData)
  mem_next_id : Nat
  db : List (Nat × NoteData)
  db_next_id : Nat
deriving DecidableEq

/-- `NotesService.__init__`: fallback off, empty memory store, memory id
counter 1; the durable table starts empty with autoincrement 1. -/
def NotesService.init : NotesService :=
  { fallback_enabled := false
    mem_store := []
    mem_next_id := 1
    db := []
    db_next_id := 1 }

/-- `enable_fallback`: set the one-way flag (the log call has no state
effect). -/
def NotesService.enable_fallback (s : NotesService) : NotesService :=
  { s with fallback_enabled := true }

/-- `_should_use_fallback`. -/
def NotesService.should_use_fallback (s : NotesService) : Bool :=
  s.fallback_enabled

/-- The volatile branch of `create_note`: take the current memory id,
bump the counter, store the record with both timestamps set to now. -/
def NotesService.create_fallback (s : NotesService) (now : Nat)
    (title : String) (content : Option String) : NoteData × NotesService :=
  let nid := s.mem_next_id
  let data : NoteData :=
    { id := nid, title := title, content := pyOr content
      created_at := now, updated_at := now }
  (data, { s with mem_store := dictSet s.mem_store nid data
                  mem_next_id := nid + 1 })

/-- `create_note(title, content)`.  On a durable failure the source rolls
back, calls `enable_fallback` and re-invokes `create_note`, which then
runs its volatile branch; that retry is written as the direct call to
`create_fallback` it evaluates to. -/
def NotesService.create_note (s : NotesService) (dbFail : Bool) (now : Nat)
    (title : String) (content : Option String) : NoteData × NotesService :=
  if s.should_use_fallback then
    s.create_fallback now title content
  else if dbFail then
    s.enable_fallback.create_fallback now title content
  else
    let nid := s.db_next_id
    let note : NoteData :=
      { id := nid, title := title, content := pyOr content
        created_at := now, updated_at := now }
    (note, { s with db := dictSet s.db nid note, db_next_id := nid + 1 })

/-- `get_note(note_id)`.  The durable branch has no `try/except` in the
source, so a durable failure surfaces as an error. -/
def NotesService.get_note (s : NotesService) (dbFail : Bool) (nid : Nat) :
    Except StorageError (Option NoteData) :=
  if s.should_use_fallback then
    .ok (dictGet s.mem_store nid)
  else if dbFail then
    .error .storageError
  else
    .ok (dictGet s.db nid)

/-- The volatile branch of `update_note`: apply only the provided fields
to the stored record and refresh `updated_at`. -/
def NotesService.update_fallback (s : NotesService) (now : Nat) (nid : Nat)
    (title : Option String) (content : Option String) :
    Option NoteData × NotesService :=
  match dictGet s.mem_store nid with
  | none => (none, s)
  | some data =>
      let data := match title with
        | some t => { data with title := t }
        | none => data
      let data := match content with
        | some c => { data with content := c }
        | none => data
      let data := { data with updated_at := now }
      (some data, { s with mem_store := dictSet s.mem_store nid data })

/-- `update_note(note_id, title, content)`.  The durable branch assigns
only the provided fields to the ORM object and commits.  The
`Note.updated_at` column declares `onupdate = now` (`app/models.py`), and
SQLAlchemy's `onupdate` fires only within an UPDATE statement the flush
actually emits; the flush emits one exactly when some attribute was
assigned (the object is dirty), so with both fields absent the commit is
a no-op and `updated_at` stays unchanged — modelled by the `dirty` flag.
A durable failure rolls back, enables the fallback and re-invokes the
operation, which then runs its volatile branch. -/
def NotesService.update_note (s : NotesService) (dbFail : Bool) (now : Nat)
    (nid : Nat) (title : Option String) (content : Option String) :
    Option NoteData × NotesService :=
  if s.should_use_fallback then
    s.update_fallback now nid title content
  else if dbFail then
    s.enable_fallback.update_fallback now nid title content
  else
    match dictGet s.db nid with
    | none => (none, s)
    | some note =>
        let dirty := title.isSome || content.isSome
        let note := match title with
          | some t => { note with title := t }
          | none => note
        let note := match content with
          | some c => { note with content := c }
          | none => note
        let note := if dirty then { note with updated_at := now } else note
        (some note, { s with db := dictSet s.db nid note })

/-- The volatile branch of `delete_note`:
`self._mem_store.pop(note_id, None) is not None`. -/
def NotesService.delete_fallback (s : NotesService) (nid : Nat) :
    Bool × NotesService :=
  let popped := dictPop s.mem_store nid
  (popped.1.isSome, { s with mem_store := popped.2 })

/-- `delete_note(note_id)`.  The durable branch looks the row up, returns
`false` when absent, otherwise deletes and commits; a durable failure
rolls back, enables the fallback and re-invokes the operation, which then
runs its volatile branch. -/
def NotesService.delete_note (s : NotesService) (dbFail : Bool) (nid : Nat) :
    Bool × NotesService :=
  if s.should_use_fallback then
    s.delete_fallback nid
  else if dbFail then
    s.enable_fallback.delete_fallback nid
  else
    match dictGet s.db nid with
    | none => (false, s)
    | some _ => (true, { s with db := dictRemove s.db nid })

/-- `list_notes(page, page_size)`.  The volatile branch slices
`list(self._mem_store.values())` (insertion order, no sorting) at offset
`(page-1)*page_size` for `page_size` items.  The durable branch orders
the table by descending id, counts all rows, then applies the same
offset/limit; it has no `try/except`, so a durable failure surfaces.
The route layer guarantees `page ≥ 1` and `page_size ≥ 1`
(`PaginationQuerySchema`), under which Python's slice is drop/take. -/
def NotesService.list_notes (s : NotesService) (dbFail : Bool)
    (page : Nat) (page_size : Nat) :
    Except StorageError (List NoteData × Nat) :=
  if s.should_use_fallback then
    let items_all := dictValues s.mem_store
    let total := items_all.length
    let start := (page - 1) * page_size
    .ok ((items_all.drop start).take page_size, total)
  else if dbFail then
    .error .storageError
  else
    let sorted := sortDesc (dictValues s.db)
    let total := sorted.length
    .ok ((sorted.drop ((page - 1) * page_size)).take page_size, total)

/-- The module-level singleton accessor `get_notes_service`: the global
`_notes_service : NotesService | None` cell is passed in and the
(possibly initialised) cell is returned with the service. -/
def get_notes_service : Option NotesService → NotesService × Option NotesService
  | none => (NotesService.init, some NotesService.init)
  | some svc => (svc, some svc)

/-- Pagination metadata record returned by the helper
(`pagination_meta` in `app/routes/notes.py`). -/
structure PageMeta where
  total : Nat
  total_pages : Nat
  first_page : Nat
  last_page : Nat
  page : Nat
  previous_page : Option Nat
  next_page : Option Nat
deriving DecidableEq

/-- `pagination_meta(total, page, page_size)`.  Python's
`ceil(total / page_size)` (true division then `math.ceil`) is modelled as
the rational ceiling; `if page_size else 1` is the zero test on
`page_size`. -/
def pagination_meta (total : Nat) (page : Nat) (page_size : Nat) : PageMeta :=
  let total_pages :=
    if page_size ≠ 0 then max (Nat.ceil ((total : ℚ) / (page_size : ℚ))) 1
    else 1
  { total := total
    total_pages := total_pages
    first_page := 1
    last_page := total_pages
    page := page
    previous_page := if 1 < page then some (page - 1) else none
    next_page := if page < total_pages then some (page + 1) else none }

/-- The error responses the notes routes produce via `abort`. -/
inductive RouteError
  | badRequest (msg : String)
  | notFound (msg : String)
deriving DecidableEq

/-- `NotesList.post` (`app/routes/notes.py`): reject a missing or
whitespace-only title with 400, otherwise create the note with the
stripped title and the raw optional content. -/
def NotesList.post (s : NotesService) (dbFail : Bool) (now : Nat)
    (title : Option String) (content : Option String) :
    Except RouteError (NoteData × NotesService) :=
  match title with
  | none => .error (.badRequest "title is required and must be non-empty")
  | some t =>
      if pyStrip t = "" then
        .error (.badRequest "title is required and must be non-empty")
      else
        .ok (s.create_note dbFail now (pyStrip t) content)

/-! ### Helper lemmas about the dict model -/

theorem dictGet_dictSet_self {α : Type} (d : List (Nat × α)) (k : Nat) (v : α) :
    dictGet (dictSet d k v) k = some v := by
  induction d with
  | nil => simp [dictSet, dictGet]
  | cons p rest ih =>
      obtain ⟨k2, v2⟩ := p
      by_cases h : k2 = k
      · simp [dictSet, h, dictGet]
      · simp [dictSet, h, dictGet, ih]

theorem dictGet_dictRemove_self {α : Type} (d : List (Nat × α)) (k : Nat) :
    dictGet (dictRemove d k) k = none := by
  induction d with
  | nil => simp [dictRemove, dictGet]
  | cons p rest ih =>
      obtain ⟨k2, v2⟩ := p
      by_cases h : k2 = k
      · simpa [dictRemove, List.filter_cons, h] using ih
      · simpa [dictRemove, List.filter_cons, h, dictGet] using ih

theorem mem_of_mem_dictSet {α : Type} {d : List (Nat × α)} {k : Nat} {v : α}
    {p : Nat × α} (h : p ∈ dictSet d k v) : p = (k, v) ∨ p ∈ d := by
  induction d with
  | nil => simpa [dictSet] using h
  | cons q rest ih =>
      obtain ⟨k2, v2⟩ := q
      by_cases hk : k2 = k
      · simp [dictSet, hk] at h
        rcases h with h | h
        · exact Or.inl (by simp [h])
        · exact Or.inr (by simp [h])
      · simp [dictSet, hk] at h
        rcases h with h | h
        · exact Or.inr (by simp [h])
        · rcases ih h with h2 | h2
          · exact Or.inl h2
          · exact Or.inr (by simp [h2])

theorem mem_of_mem_dictRemove {α : Type} {d : List (Nat × α)} {k : Nat}
    {p : Nat × α} (h : p ∈ dictRemove d k) : p ∈ d :=
  List.mem_of_mem_filter h

theorem mem_of_dictGet_eq_some {α : Type} {d : List (Nat × α)} {k : Nat}
    {v : α} (h : dictGet d k = some v) : (k, v) ∈ d := by
  induction d with
  | nil => simp [dictGet] at h
  | cons q rest ih =>
      obtain ⟨k2, v2⟩ := q
      by_cases hk : k2 = k
      · simp [dictGet, hk] at h
        simp [hk, h]
      · simp [dictGet, hk] at h
        exact List.mem_cons_of_mem _ (ih h)

theorem dictGet_eq_none_of_forall_lt {α : Type} (d : List (Nat × α)) (k : Nat)
    (h : ∀ p ∈ d, p.1 < k) : dictGet d k = none := by
  induction d with
  | nil => simp [dictGet]
  | cons q rest ih =>
      obtain ⟨k2, v2⟩ := q
      have hk2 : k2 < k := h (k2, v2) (List.mem_cons_self _ _)
      have : k2 ≠ k := Nat.ne_of_lt hk2
      simp [dictGet, this]
      exact ih (fun p hp => h p (List.mem_cons_of_mem _ hp))

/-! ### Helper lemmas about stripping whitespace -/

theorem exists_not_of_dropWhile_ne_nil (p : Char → Bool) (l : List Char)
    (h : l.dropWhile p ≠ []) : ∃ c ∈ l.dropWhile p, p c = false := by
  induction l with
  | nil => simp [List.dropWhile] at h
  | cons x xs ih =>
      by_cases hx : p x
      · rw [List.dropWhile_cons, if_pos hx] at h ⊢
        exact ih h
      · rw [List.dropWhile_cons, if_neg hx]
        exact ⟨x, List.mem_cons_self _ _, by simpa using hx⟩

/-! ### The rational ceiling of a quotient of naturals is ceiling division -/

theorem ceil_div_nat (a b : Nat) (hb : 0 < b) :
    Nat.ceil ((a : ℚ) / (b : ℚ)) = (a + b - 1) / b := by
  rcases Nat.eq_zero_or_pos a with ha | ha
  · subst ha
    have h0 : ((0 : ℕ) : ℚ) / (b : ℚ) = 0 := by simp
    rw [h0, Nat.ceil_zero]
    symm
    apply Nat.div_eq_of_lt
    omega
  · set n := (a + b - 1) / b with hn
    have hbq : (0 : ℚ) < (b : ℚ) := by exact_mod_cast hb
    have hdm := Nat.div_add_mod (a + b - 1) b
    have hmod : (a + b - 1) % b < b := Nat.mod_lt _ hb
    have hgen : ∀ M r : ℕ, M + r = a + b - 1 → r < b → a ≤ M ∧ M < a + b := by
      intro M r h1 h2
      omega
    have hkey : a ≤ b * n ∧ b * n < a + b := hgen (b * n) ((a + b - 1) % b) hdm hmod
    have hn0 : n ≠ 0 := by
      intro h0
      rw [h0, Nat.mul_zero] at hkey
      omega
    rw [Nat.ceil_eq_iff hn0]
    have hstep : ∀ M : ℕ, a ≤ M → M < a + b → b ≤ M → M - b < a := by
      intro M h1 h2 h3
      omega
    constructor
    · rw [lt_div_iff₀ hbq]
      have hble : b ≤ b * n := Nat.le_mul_of_pos_right b (Nat.pos_of_ne_zero hn0)
      have hlt : (n - 1) * b < a := by
        have hrw : (n - 1) * b = b * n - b := by
          rw [Nat.sub_mul, Nat.one_mul, Nat.mul_comm]
        rw [hrw]
        exact hstep (b * n) hkey.1 hkey.2 hble
      exact_mod_cast hlt
    · rw [div_le_iff₀ hbq]
      have hle : a ≤ n * b := by
        rw [Nat.mul_comm]
        exact hkey.1
      exact_mod_cast hle

/-! ### Claim theorems -/

/-- A volatile service holding three notes created in order (ids 1, 2, 3):
the state reached from a fresh service after the fallback flag is set and
three `create_note` calls. -/
def c1Service : NotesService :=
  (((NotesService.init.enable_fallback.create_note false 0 "a" none).2.create_note
      false 1 "b" none).2.create_note false 2 "c" none).2

/-- C1: refuted on the volatile backend.  Over three stored notes with
ids 1, 2, 3 the volatile `list_notes(page = 1, page_size = 1)` returns the
note with id 1 — the head of the insertion-order snapshot, which the
source never sorts — whereas ordering by descending id (second conjunct:
the same snapshot actually sorted by descending id and sliced the same
way) would return the note with id 3. -/
theorem c1_volatile_list_not_sorted :
    c1Service.list_notes false 1 1 =
      .ok ([{ id := 1, title := "a", content := "", created_at := 0,
              updated_at := 0 }], 3) ∧
    ((sortDesc (dictValues c1Service.mem_store)).drop 0).take 1 =
      [{ id := 3, title := "c", content := "", created_at := 2,
         updated_at := 2 }] :=
  ⟨rfl, rfl⟩

/-- C2: refuted.  On a fresh service the durable backend raises
`StorageError` inside `get_note` (first conjunct; `get_note` has no
`try/except`, so the exception propagates and the service state is
unchanged).  The claim says every subsequent operation is then served by
the volatile backend, but the next `create_note` on the same instance
still runs against the durable backend: the fallback flag is still off,
the row is written to the durable table and the volatile store stays
empty. -/
theorem c2_error_on_get_does_not_flip_backend :
    NotesService.init.get_note true 1 = .error .storageError ∧
    (NotesService.init.create_note false 0 "a" none).2.fallback_enabled
      = false ∧
    (NotesService.init.create_note false 0 "a" none).2.db =
      [(1, { id := 1, title := "a", content := "", created_at := 0,
             updated_at := 0 })] ∧
    (NotesService.init.create_note false 0 "a" none).2.mem_store = [] :=
  ⟨rfl, rfl, rfl, rfl⟩

/-- C3: refuted.  `get_note` and `list_notes` have no `try/except` around
their durable branch, so a `StorageError` raised by the durable backend is
surfaced to the caller instead of being absorbed by a volatile retry. -/
theorem c3_read_ops_surface_storage_error :
    NotesService.init.get_note true 7 = .error .storageError ∧
    NotesService.init.list_notes true 1 10 = .error .storageError :=
  ⟨rfl, rfl⟩

/-- C4: for all `total ≥ 0`, `page ≥ 1`, `page_size ≥ 1` the pagination
helper returns `total_pages = max(ceil(total / page_size), 1)` (the
rational ceiling equals ceiling division `(total + page_size - 1) /
page_size`), `first_page = 1`, `last_page = total_pages`,
`previous_page = page - 1` iff `page > 1` else none, `next_page =
page + 1` iff `page < total_pages` else none; and
`computeMeta(0, 1, 10)` is page 1 of 1 with no neighbours. -/
theorem c4_pagination_meta_formula (total page page_size : Nat)
    (hp : 1 ≤ page) (hs : 1 ≤ page_size) :
    pagination_meta total page page_size =
      { total := total
        total_pages := max ((total + page_size - 1) / page_size) 1
        first_page := 1
        last_page := max ((total + page_size - 1) / page_size) 1
        page := page
        previous_page := if 1 < page then some (page - 1) else none
        next_page :=
          if page < max ((total + page_size - 1) / page_size) 1
          then some (page + 1) else none } ∧
    pagination_meta 0 1 10 =
      { total := 0, total_pages := 1, first_page := 1, last_page := 1,
        page := 1, previous_page := none, next_page := none } := by
  constructor
  · have hps : page_size ≠ 0 := by omega
    have hceil := ceil_div_nat total page_size (by omega)
    simp [pagination_meta, hps, hceil]
  · simp [pagination_meta]

/-- C4 witness: the formula evaluated at `total = 25`, `page = 2`,
`page_size = 10` (3 pages, neighbours 1 and 3) and the given example. -/
theorem c4_pagination_meta_formula_witness :
    1 ≤ 2 ∧ 1 ≤ 10 ∧
    (pagination_meta 25 2 10 =
      { total := 25, total_pages := 3, first_page := 1, last_page := 3,
        page := 2, previous_page := some 1, next_page := some 3 } ∧
     pagination_meta 0 1 10 =
      { total := 0, total_pages := 1, first_page := 1, last_page := 1,
        page := 1, previous_page := none, next_page := none }) :=
  ⟨by decide, by decide, c4_pagination_meta_formula 25 2 10 (by decide) (by decide)⟩

/-- C9: the pagination helper is total at `page_size = 0`: the
`if page_size else 1` guard short-circuits the division, so
`total_pages = 1` and the neighbour fields are computed from that floor
(`previous_page = page - 1` iff `page > 1`, `next_page = page + 1` iff
`page < 1`). -/
theorem c9_pagination_meta_total_at_zero_page_size (total page : Nat) :
    pagination_meta total page 0 =
      { total := total, total_pages := 1, first_page := 1, last_page := 1,
        page := page
        previous_page := if 1 < page then some (page - 1) else none
        next_page := if page < 1 then some (page + 1) else none } := by
  simp [pagination_meta]

/-- A durable service holding one note (id 1, created at time 5): the
state after one successful `create_note` on a fresh service. -/
def c5Service : NotesService :=
  (NotesService.init.create_note false 5 "t" none).2

/-- A volatile service holding the same single note (id 1, created at
time 5): the fallback flag is set on a fresh service before the create. -/
def c5VolatileService : NotesService :=
  (NotesService.init.enable_fallback.create_note false 5 "t" none).2

/-- C5: refuted on the durable backend.  Updating the stored note (id 1,
created at time 5) with neither field supplied at time 9 assigns no ORM
attribute, so the commit emits no UPDATE and `onupdate` never fires: the
returned and the stored note keep `updated_at = 5` (first two conjuncts),
whereas the claim says `updated_at` is refreshed to 9 on whichever
backend is active.  The volatile branch, which sets `updated_at`
explicitly, does refresh it to 9 on the same input (third conjunct), so
the divergence is exactly the durable no-fields case. -/
theorem c5_durable_noop_update_keeps_updated_at :
    (c5Service.update_note false 9 1 none none).1 =
      some { id := 1, title := "t", content := "", created_at := 5,
             updated_at := 5 } ∧
    dictGet (c5Service.update_note false 9 1 none none).2.db 1 =
      some { id := 1, title := "t", content := "", created_at := 5,
             updated_at := 5 } ∧
    (c5VolatileService.update_note false 9 1 none none).1 =
      some { id := 1, title := "t", content := "", created_at := 5,
             updated_at := 9 } :=
  ⟨rfl, rfl, rfl⟩

/-- C6: `delete_note(id)` returns true iff a note with that id is present
in the backend that serves the deletion (the volatile store when the
fallback is already active or the durable attempt fails on this call,
otherwise the durable table), it removes the note, and a subsequent
`get_note(id)` on the resulting service returns the not-found result. -/
theorem c6_delete_iff_present_and_get_not_found (s : NotesService)
    (dbFail : Bool) (nid : Nat) :
    ((s.delete_note dbFail nid).1 = true ↔
      (dictGet (if s.fallback_enabled || dbFail then s.mem_store else s.db)
        nid).isSome = true) ∧
    (s.delete_note dbFail nid).2.get_note false nid = .ok none := by
  rcases hf : s.fallback_enabled with _ | _
  · rcases dbFail with _ | _
    · rcases hg : dictGet s.db nid with _ | d
      · simp [NotesService.delete_note, NotesService.should_use_fallback,
          NotesService.get_note, hf, hg]
      · simp [NotesService.delete_note, NotesService.should_use_fallback,
          NotesService.get_note, hf, hg, dictGet_dictRemove_self]
    · simp [NotesService.delete_note, NotesService.delete_fallback,
        NotesService.should_use_fallback, NotesService.enable_fallback,
        NotesService.get_note, dictPop, hf, dictGet_dictRemove_self]
  · simp [NotesService.delete_note, NotesService.delete_fallback,
      NotesService.should_use_fallback, NotesService.get_note, dictPop, hf,
      dictGet_dictRemove_self]

/-- C8: the accessor over the module-level cell `_notes_service` is a
lazily-initialized singleton: a first access on the empty cell constructs
the initial service (fallback flag off, empty volatile store, counter 1)
and caches it; any access on a filled cell returns the cached instance
and leaves the cell unchanged, so the second access returns exactly what
the first one constructed. -/
theorem c8_get_notes_service_singleton :
    (get_notes_service none).1 = NotesService.init ∧
    NotesService.init.fallback_enabled = false ∧
    NotesService.init.mem_store = [] ∧
    NotesService.init.mem_next_id = 1 ∧
    (∀ s : NotesService, get_notes_service (some s) = (s, some s)) ∧
    get_notes_service (get_notes_service none).2 =
      ((get_notes_service none).1, (get_notes_service none).2) :=
  ⟨rfl, rfl, rfl, rfl, fun _ => rfl, rfl⟩

/-- In every branch of `create_note` the stored note carries the title the
service was given, and looking the returned id up on the resulting
service yields the returned note. -/
theorem create_note_title_and_stored (s : NotesService) (dbFail : Bool)
    (now : Nat) (title : String) (content : Option String) :
    (s.create_note dbFail now title content).1.title = title ∧
    (s.create_note dbFail now title content).2.get_note false
      (s.create_note dbFail now title content).1.id =
      .ok (some (s.create_note dbFail now title content).1) := by
  rcases hf : s.fallback_enabled with _ | _
  · rcases dbFail with _ | _
    · simp [NotesService.create_note, NotesService.should_use_fallback,
        NotesService.get_note, hf, dictGet_dictSet_self]
    · simp [NotesService.create_note, NotesService.create_fallback,
        NotesService.enable_fallback, NotesService.should_use_fallback,
        NotesService.get_note, hf, dictGet_dictSet_self]
  · simp [NotesService.create_note, NotesService.create_fallback,
      NotesService.should_use_fallback, NotesService.get_note, hf,
      dictGet_dictSet_self]

/-- C7: a create request whose title strips to a non-empty string is
accepted by the route, the note is stored (and retrievable) with the
stripped title, and that stored title is neither empty nor
whitespace-only. -/
theorem c7_create_stores_trimmed_title (s : NotesService) (dbFail : Bool)
    (now : Nat) (t : String) (content : Option String)
    (h : pyStrip t ≠ "") :
    ∃ note s2,
      NotesList.post s dbFail now (some t) content = .ok (note, s2) ∧
      note.title = pyStrip t ∧
      note.title ≠ "" ∧
      ¬(∀ c ∈ note.title.data, c.isWhitespace) ∧
      s2.get_note false note.id = .ok (some note) := by
  obtain ⟨htitle, hstored⟩ :=
    create_note_title_and_stored s dbFail now (pyStrip t) content
  refine ⟨(s.create_note dbFail now (pyStrip t) content).1,
          (s.create_note dbFail now (pyStrip t) content).2,
          ?_, htitle, ?_, ?_, hstored⟩
  · simp [NotesList.post, h]
  · rw [htitle]; exact h
  · rw [htitle]
    have hD : ((t.data.dropWhile Char.isWhitespace).reverse.dropWhile
        Char.isWhitespace) ≠ [] := by
      intro hD0
      apply h
      show String.mk _ = ""
      rw [hD0]
      rfl
    obtain ⟨c, hc, hcf⟩ := exists_not_of_dropWhile_ne_nil
      Char.isWhitespace (t.data.dropWhile Char.isWhitespace).reverse hD
    intro hall
    have hcmem : c ∈ (pyStrip t).data := by
      simp only [pyStrip]
      exact List.mem_reverse.mpr hc
    exact absurd (hall c hcmem) (by simp [hcf])

/-- C7 witness: creating a note with title `" hello "` (which strips to
the non-empty `"hello"`) stores the trimmed title. -/
theorem c7_create_stores_trimmed_title_witness :
    pyStrip " hello " = "hello" ∧ pyStrip " hello " ≠ "" ∧
    (∃ note s2,
      NotesList.post NotesService.init false 0 (some " hello ") none =
        .ok (note, s2) ∧
      note.title = pyStrip " hello " ∧
      note.title ≠ "" ∧
      ¬(∀ c ∈ note.title.data, c.isWhitespace) ∧
      s2.get_note false note.id = .ok (some note)) :=
  ⟨by decide, by decide,
   c7_create_stores_trimmed_title NotesService.init false 0 " hello " none
     (by decide)⟩

/-- The volatile-store invariant: every key of the in-memory store is
below the memory id counter. -/
abbrev memInv (s : NotesService) : Prop :=
  ∀ p ∈ s.mem_store, p.1 < s.mem_next_id

/-- C10: on the volatile backend, `create_note` assigns the current value
of the id counter — an id absent from the store — and bumps the counter
by one; `delete_note` and `update_note` never change the counter; and all
three preserve the invariant that every stored key is below the counter,
so a deleted id is never handed out again. -/
theorem c10_volatile_ids_monotone (s : NotesService) (dbFail : Bool)
    (now nid : Nat) (t : String) (c titleU contentU : Option String)
    (hf : s.fallback_enabled = true) (hinv : memInv s) :
    ((s.create_note dbFail now t c).1.id = s.mem_next_id ∧
     (s.create_note dbFail now t c).2.mem_next_id = s.mem_next_id + 1 ∧
     dictGet s.mem_store (s.create_note dbFail now t c).1.id = none ∧
     memInv (s.create_note dbFail now t c).2) ∧
    ((s.delete_note dbFail nid).2.mem_next_id = s.mem_next_id ∧
     memInv (s.delete_note dbFail nid).2) ∧
    ((s.update_note dbFail now nid titleU contentU).2.mem_next_id
        = s.mem_next_id ∧
     memInv (s.update_note dbFail now nid titleU contentU).2) := by
  have hcr : s.create_note dbFail now t c = s.create_fallback now t c := by
    simp [NotesService.create_note, NotesService.should_use_fallback, hf]
  have hdel : s.delete_note dbFail nid = s.delete_fallback nid := by
    simp [NotesService.delete_note, NotesService.should_use_fallback, hf]
  have hupd : s.update_note dbFail now nid titleU contentU =
      s.update_fallback now nid titleU contentU := by
    simp [NotesService.update_note, NotesService.should_use_fallback, hf]
  refine ⟨?_, ?_, ?_⟩
  · rw [hcr]
    refine ⟨rfl, rfl, dictGet_eq_none_of_forall_lt _ _ hinv, ?_⟩
    intro p hp
    simp only [NotesService.create_fallback] at hp ⊢
    rcases mem_of_mem_dictSet hp with h | h
    · rw [h]
      exact Nat.lt_succ_self _
    · exact Nat.lt_succ_of_lt (hinv p h)
  · rw [hdel]
    refine ⟨rfl, ?_⟩
    intro p hp
    simp only [NotesService.delete_fallback, dictPop] at hp ⊢
    exact hinv p (mem_of_mem_dictRemove hp)
  · rw [hupd]
    rcases hg : dictGet s.mem_store nid with _ | data
    · simp only [NotesService.update_fallback, hg]
      exact ⟨trivial, hinv⟩
    · simp only [NotesService.update_fallback, hg]
      refine ⟨trivial, ?_⟩
      intro p hp
      simp only at hp ⊢
      rcases mem_of_mem_dictSet hp with h | h
      · rw [h]
        exact hinv (nid, data) (mem_of_dictGet_eq_some hg)
      · exact hinv p h

/-- C10 witness: the fresh volatile service (empty store, counter 1)
satisfies the invariant, the first create assigns id 1 and bumps the
counter to 2, and deletes and updates leave the counter at 1. -/
theorem c10_volatile_ids_monotone_witness :
    NotesService.init.enable_fallback.fallback_enabled = true ∧
    memInv NotesService.init.enable_fallback ∧
    (((NotesService.init.enable_fallback.create_note false 0 "x" none).1.id =
        NotesService.init.enable_fallback.mem_next_id ∧
      (NotesService.init.enable_fallback.create_note false 0 "x" none).2.mem_next_id =
        NotesService.init.enable_fallback.mem_next_id + 1 ∧
      dictGet NotesService.init.enable_fallback.mem_store
        (NotesService.init.enable_fallback.create_note false 0 "x" none).1.id
        = none ∧
      memInv (NotesService.init.enable_fallback.create_note false 0 "x" none).2) ∧
     ((NotesService.init.enable_fallback.delete_note false 1).2.mem_next_id =
        NotesService.init.enable_fallback.mem_next_id ∧
      memInv (NotesService.init.enable_fallback.delete_note false 1).2) ∧
     ((NotesService.init.enable_fallback.update_note false 0 1 none none).2.mem_next_id
        = NotesService.init.enable_fallback.mem_next_id ∧
      memInv (NotesService.init.enable_fallback.update_note false 0 1 none none).2)) :=
  ⟨rfl, by decide,
   c10_volatile_ids_monotone NotesService.init.enable_fallback false 0 1 "x"
     none none none rfl (by decide)⟩
